import Mathlib

/-!
Verification development for the Shovel repository scanner.

The definitions below are a shallow embedding of the JavaScript source:
`src/scanner.js` (the `ProjectScanner` class) and the server file holding
the rate limiter, URL validation, clone-size check and error mapping.
File contents are modelled as strings, the workspace as a tree of named
entries, machine numbers as `Int`/`Nat`, exceptions as `Except`/`Option`,
and `JSON.parse` as an abstract `String → Option PkgJson` argument
(failure of the parse models a thrown `SyntaxError`, caught by
`readJsonFile`).
-/

namespace Shovel

/-- Model of JavaScript `String.prototype.includes` on char lists:
`needle` occurs contiguously in the haystack. -/
def hasInfix (needle : List Char) : List Char → Bool
  | [] => needle.isEmpty
  | c :: rest => needle.isPrefixOf (c :: rest) || hasInfix needle rest

/-- Model of JavaScript `hay.includes(needle)`. -/
def strIncludes (hay needle : String) : Bool :=
  hasInfix needle.toList hay.toList

/-- Model of JavaScript `toLowerCase` (ASCII, which is all the scanner uses). -/
def strToLower (s : String) : String :=
  String.mk (s.toList.map Char.toLower)

/-- True when the name begins with a dot (hidden file or directory). -/
def startsWithDot (s : String) : Bool :=
  match s.toList with
  | '.' :: _ => true
  | _ => false

/-- Splits a relative path on `'/'`, modelling how `path.join` composes
the workspace root with a relative path such as `prisma/schema.prisma`. -/
def splitPathAux : List Char → List (List Char)
  | [] => [[]]
  | c :: rest =>
    let r := splitPathAux rest
    if c = '/' then [] :: r
    else
      match r with
      | [] => [[c]]
      | h :: t => (c :: h) :: t

/-- Path segments of a relative path. -/
def splitPath (s : String) : List String :=
  (splitPathAux s.toList).map fun l => String.mk l

/-- Model of Node's `path.extname` on a base name: the substring from the
last dot, unless that dot is the first character (dotfile) or absent. -/
def extname (nm : String) : String :=
  let cs := nm.toList
  let afterDot := cs.reverse.takeWhile fun c => c ≠ '.'
  if afterDot.length = cs.length then ""
  else
    let i := cs.length - afterDot.length - 1
    if i = 0 then "" else String.mk (cs.drop i)

/-- Model of JavaScript `Array.prototype.join(', ')`. -/
def joinComma : List String → String
  | [] => ""
  | [x] => x
  | x :: y :: rest => x ++ ", " ++ joinComma (y :: rest)

/-- A workspace tree entry: a file with contents, or a directory. -/
inductive Entry where
  | file (name : String) (content : String)
  | dir (name : String) (entries : List Entry)

/-- The name of an entry, as returned by `readdirSync`. -/
def Entry.name : Entry → String
  | .file n _ => n
  | .dir n _ => n

/-- First entry with the given name, modelling a path-segment lookup. -/
def findEntry (name : String) (es : List Entry) : Option Entry :=
  es.find? fun e => e.name = name

/-- Resolves a segment path inside a list of entries. -/
def lookupPath (es : List Entry) : List String → Option Entry
  | [] => none
  | [seg] => findEntry seg es
  | seg :: rest =>
    match findEntry seg es with
    | some (.dir _ sub) => lookupPath sub rest
    | _ => none

/-- Model of `fileExists` in scanner.js: `fs.existsSync(path.join(root, rel))`,
true for files and directories alike, `false` on any error. -/
def fileExists (ws : List Entry) (rel : String) : Bool :=
  (lookupPath ws (splitPath rel)).isSome

/-- Model of `readFile` in scanner.js: `readFileSync` with every failure
(missing file, directory, unreadable) caught and turned into `''`. -/
def readFile (ws : List Entry) (rel : String) : String :=
  match lookupPath ws (splitPath rel) with
  | some (.file _ c) => c
  | _ => ""

mutual
/-- One entry of the recursive walk in `searchInFiles`: descends into
directories that are not hidden and not `node_modules`, and collects the
relative path of a file whose `extname` is in `exts` and whose base name
contains one of `pats` (or of any file when `pats` is empty). -/
def searchEntry (exts pats : List String) (pre : String) : Entry → List String
  | .dir n sub =>
    if !startsWithDot n && n ≠ "node_modules" then
      searchEntries exts pats (if pre = "" then n else pre ++ "/" ++ n) sub
    else []
  | .file n _ =>
    if exts.contains (extname n) &&
        (pats.isEmpty || pats.any fun p => strIncludes n p) then
      [if pre = "" then n else pre ++ "/" ++ n]
    else []

/-- The `readdirSync` loop of the walk, in listing order. -/
def searchEntries (exts pats : List String) (pre : String) : List Entry → List String
  | [] => []
  | e :: rest => searchEntry exts pats pre e ++ searchEntries exts pats pre rest
end

/-- Model of `searchInFiles(extensions, namePatterns)` in scanner.js. -/
def searchInFiles (ws : List Entry) (exts pats : List String) : List String :=
  searchEntries exts pats "" ws

/-- Model of `getAllFiles(extensions)` in scanner.js. -/
def getAllFiles (ws : List Entry) (exts : List String) : List String :=
  searchInFiles ws exts []

/-- Model of `searchInContent(searchTerm)` in scanner.js: case-insensitive
substring search over at most the first 50 candidate files. -/
def searchInContent (ws : List Entry) (term : String) : Bool :=
  let files := getAllFiles ws [".js", ".ts", ".jsx", ".tsx", ".py", ".html", ".json"]
  (files.take 50).any fun f =>
    strIncludes (strToLower (readFile ws f)) (strToLower term)

/-- The `scripts` object of a package manifest, restricted to the keys the
scanner reads (`build` and `start`, each field true when the key is present
and truthy). -/
structure Scripts where
  build : Bool
  start : Bool
deriving Repr, DecidableEq

/-- A parsed `package.json`, restricted to the properties the scanner
reads. `none` models an absent property (JavaScript `undefined`). -/
structure PkgJson where
  dependencies : Option (List String)
  devDependencies : Option (List String)
  scripts : Option Scripts
deriving Repr, DecidableEq

/-- The empty object `{}` returned by `readJsonFile` on a parse failure. -/
def emptyPkg : PkgJson := ⟨none, none, none⟩

/-- Model of `readJsonFile` in scanner.js: `JSON.parse` of the file text,
with a thrown parse error caught and replaced by `{}`. The parse itself is
abstract (`parse`), since the scanner only consumes the fields of `PkgJson`. -/
def readJsonFile (parse : String → Option PkgJson) (ws : List Entry)
    (rel : String) : PkgJson :=
  (parse (readFile ws rel)).getD emptyPkg

/-- `Object.keys({...dependencies, ...devDependencies})` as used by the
scanner: declared direct plus dev dependency names. -/
def allDepsOf (j : PkgJson) : List String :=
  j.dependencies.getD [] ++ j.devDependencies.getD []

/-- Truthiness of `packageJson.scripts && packageJson.scripts.build`. -/
def hasBuildScript (j : PkgJson) : Bool :=
  match j.scripts with
  | some sc => sc.build
  | none => false

/-- Truthiness of `packageJson.scripts && packageJson.scripts.start`. -/
def hasStartScript (j : PkgJson) : Bool :=
  match j.scripts with
  | some sc => sc.start
  | none => false

/-- Model of `detectFramework` in scanner.js. Note that it reads only the
direct `dependencies` object. -/
def detectFramework (parse : String → Option PkgJson) (ws : List Entry) : String :=
  if fileExists ws "package.json" then
    let j := readJsonFile parse ws "package.json"
    let deps := j.dependencies.getD []
    if deps.contains "next" then "Next.js"
    else if deps.contains "react" then "React"
    else if deps.contains "vue" then "Vue.js"
    else if deps.contains "svelte" then "Svelte"
    else "None"
  else "None"

/-- Model of `detectBuildTool` in scanner.js: direct plus dev dependencies,
then the `build` script as a fallback. -/
def detectBuildTool (parse : String → Option PkgJson) (ws : List Entry) : String :=
  if fileExists ws "package.json" then
    let j := readJsonFile parse ws "package.json"
    let deps := allDepsOf j
    if deps.contains "vite" then "Vite"
    else if deps.contains "webpack" then "Webpack"
    else if hasBuildScript j then "npm scripts"
    else "None"
  else "None"

/-- The `technologies` list built by `detectStack` in scanner.js, in push
order. -/
def detectStackTechs (parse : String → Option PkgJson) (ws : List Entry) : List String :=
  let nodePart :=
    if fileExists ws "package.json" then
      let j := readJsonFile parse ws "package.json"
      "Node.js" ::
        (if j.dependencies.isSome then
           let deps := allDepsOf j
           (if deps.contains "next" then ["Next.js"] else []) ++
           (if deps.contains "react" then ["React"] else []) ++
           (if deps.contains "vue" then ["Vue.js"] else []) ++
           (if deps.contains "svelte" then ["Svelte"] else []) ++
           (if deps.contains "express" then ["Express"] else []) ++
           (if deps.contains "fastify" then ["Fastify"] else []) ++
           (if deps.contains "vite" then ["Vite"] else []) ++
           (if deps.contains "webpack" then ["Webpack"] else []) ++
           (if deps.contains "tailwindcss" then ["Tailwind CSS"] else []) ++
           (if deps.contains "typescript" || fileExists ws "tsconfig.json" then
              ["TypeScript"] else [])
         else [])
    else []
  let pythonPart :=
    if fileExists ws "requirements.txt" || fileExists ws "pyproject.toml" then
      let req :=
        if fileExists ws "requirements.txt" then readFile ws "requirements.txt" else ""
      "Python" ::
        ((if strIncludes req "django" then ["Django"] else []) ++
         (if strIncludes req "flask" then ["Flask"] else []) ++
         (if strIncludes req "fastapi" then ["FastAPI"] else []))
    else []
  let dockerPart :=
    if fileExists ws "Dockerfile" || fileExists ws "docker-compose.yml" then
      ["Docker"] else []
  let base := nodePart ++ pythonPart ++ dockerPart
  base ++
    (if fileExists ws "index.html" && !base.contains "React" && !base.contains "Vue.js" then
       ["Static HTML"] else [])

/-- The `stackDetection` record assembled by `detectStack` in scanner.js. -/
structure StackDetection where
  technologies : List String
  hasPackageJson : Bool
  hasDockerfile : Bool
  hasTypeScript : Bool
  framework : String
  buildTool : String
deriving Repr, DecidableEq

/-- Model of `detectStack` in scanner.js. -/
def detectStack (parse : String → Option PkgJson) (ws : List Entry) : StackDetection :=
  { technologies := detectStackTechs parse ws
    hasPackageJson := fileExists ws "package.json"
    hasDockerfile := fileExists ws "Dockerfile"
    hasTypeScript :=
      fileExists ws "tsconfig.json" || 0 < (searchInFiles ws [".ts", ".tsx"] []).length
    framework := detectFramework parse ws
    buildTool := detectBuildTool parse ws }

/-- One category's result, as pushed onto `this.categories` in scanner.js. -/
structure CategoryScore where
  name : String
  score : Int
  status : String
  findings : List String
  suggestion : String
  fixAvailable : Bool
deriving Repr, DecidableEq

/-- Frontend check 1 of `scoreFrontend`: detected framework (40) or a static
`index.html` (20). -/
def frontendFrameworkPoints (parse : String → Option PkgJson) (ws : List Entry) : Int :=
  if detectFramework parse ws ≠ "None" then 40
  else if fileExists ws "index.html" then 20
  else 0

/-- Findings pushed by frontend check 1. -/
def frontendFrameworkFindings (parse : String → Option PkgJson) (ws : List Entry) : List String :=
  if detectFramework parse ws ≠ "None" then
    [detectFramework parse ws ++ " framework detected"]
  else if fileExists ws "index.html" then ["Static HTML frontend detected"]
  else ["No frontend files detected"]

/-- Frontend check 2: configured build tool (30). -/
def frontendBuildPoints (parse : String → Option PkgJson) (ws : List Entry) : Int :=
  if detectBuildTool parse ws ≠ "None" then 30 else 0

/-- Findings pushed by frontend check 2. -/
def frontendBuildFindings (parse : String → Option PkgJson) (ws : List Entry) : List String :=
  if detectBuildTool parse ws ≠ "None" then
    ["Build tool configured: " ++ detectBuildTool parse ws]
  else []

/-- Frontend check 3 condition: evaluated only when `package.json` exists;
tailwindcss dependency or any `.css` file in the tree. -/
def frontendStylingHit (parse : String → Option PkgJson) (ws : List Entry) : Bool :=
  fileExists ws "package.json" &&
    ((allDepsOf (readJsonFile parse ws "package.json")).contains "tailwindcss" ||
     0 < (searchInFiles ws [".css"] []).length)

/-- Frontend check 4 condition: responsive-design markers in content. -/
def frontendResponsiveHit (ws : List Entry) : Bool :=
  searchInContent ws "viewport" || searchInContent ws "responsive" ||
    searchInContent ws "@media"

/-- The accumulated frontend score before clamping. -/
def frontendRawScore (parse : String → Option PkgJson) (ws : List Entry) : Int :=
  frontendFrameworkPoints parse ws + frontendBuildPoints parse ws +
    (if frontendStylingHit parse ws then 20 else 0) +
    (if frontendResponsiveHit ws then 10 else 0)

/-- Model of `scoreFrontend` in scanner.js. -/
def scoreFrontend (parse : String → Option PkgJson) (ws : List Entry) : CategoryScore :=
  { name := "Frontend"
    score := min (frontendRawScore parse ws) 100
    status :=
      if frontendRawScore parse ws ≥ 70 then "pass"
      else if frontendRawScore parse ws ≥ 40 then "warning"
      else "critical"
    findings :=
      frontendFrameworkFindings parse ws ++ frontendBuildFindings parse ws ++
        (if frontendStylingHit parse ws then ["Styling framework/CSS detected"] else []) ++
        (if frontendResponsiveHit ws then ["Responsive design patterns found"] else [])
    suggestion :=
      if frontendRawScore parse ws < 70 then
        "Add a modern frontend framework like React or Vue.js with proper build configuration"
      else "Frontend looks good"
    fixAvailable := frontendRawScore parse ws < 70 }

/-- Backend check 1 condition: entry-point files. -/
def backendEntryHit (ws : List Entry) : Bool :=
  0 < (searchInFiles ws [".js", ".ts", ".py"] ["server", "app", "main", "index"]).length

/-- Backend check 2 condition, Node branch. -/
def backendNodeHit (ws : List Entry) : Bool :=
  searchInContent ws "express()" || searchInContent ws "app.listen" ||
    searchInContent ws "fastify()"

/-- Backend check 2 condition, Python branch. -/
def backendPythonHit (ws : List Entry) : Bool :=
  searchInContent ws "Flask" || searchInContent ws "Django" ||
    searchInContent ws "FastAPI"

/-- Backend check 3 condition: API route markers. -/
def backendRoutesHit (ws : List Entry) : Bool :=
  searchInContent ws "/api/" || searchInContent ws "app.get" ||
    searchInContent ws "app.post" || searchInContent ws "@app.route"

/-- The accumulated backend score before clamping. -/
def backendRawScore (ws : List Entry) : Int :=
  (if backendEntryHit ws then 30 else 0) +
    (if backendNodeHit ws then 40 else if backendPythonHit ws then 40 else 0) +
    (if backendRoutesHit ws then 30 else 0)

/-- Model of `scoreBackend` in scanner.js. -/
def scoreBackend (ws : List Entry) : CategoryScore :=
  { name := "Backend"
    score := min (backendRawScore ws) 100
    status :=
      if backendRawScore ws ≥ 70 then "pass"
      else if backendRawScore ws ≥ 30 then "warning"
      else "critical"
    findings :=
      (if backendEntryHit ws then ["Backend entry points detected"] else []) ++
        (if backendNodeHit ws then ["Node.js server framework detected"]
         else if backendPythonHit ws then ["Python web framework detected"] else []) ++
        (if backendRoutesHit ws then ["API routes detected"] else ["No API routes found"]) ++
        (if backendRawScore ws = 0 then ["No backend detected"] else [])
    suggestion :=
      if backendRawScore ws < 70 then
        "Add a backend server with API endpoints using Express.js or similar"
      else "Backend implementation looks good"
    fixAvailable := backendRawScore ws < 70 }

/-- The fixed auth-library lookup table of `scoreAuthentication`. -/
def authLibsList : List String :=
  ["@clerk/nextjs", "@clerk/react", "@auth0/auth0-react", "next-auth", "firebase",
   "@supabase/auth-helpers", "passport", "jsonwebtoken", "bcrypt"]

/-- Auth libraries found among declared dependencies (empty without a manifest). -/
def authDetectedLibs (parse : String → Option PkgJson) (ws : List Entry) : List String :=
  if fileExists ws "package.json" then
    authLibsList.filter fun lib =>
      (allDepsOf (readJsonFile parse ws "package.json")).contains lib
  else []

/-- Login/password co-occurrence condition of `scoreAuthentication`. -/
def authLoginHit (ws : List Entry) : Bool :=
  searchInContent ws "login" && searchInContent ws "password"

/-- Token/session marker condition of `scoreAuthentication`. -/
def authTokenHit (ws : List Entry) : Bool :=
  searchInContent ws "jwt" || searchInContent ws "token" || searchInContent ws "session"

/-- The accumulated authentication score before clamping. -/
def authRawScore (parse : String → Option PkgJson) (ws : List Entry) : Int :=
  (if authDetectedLibs parse ws ≠ [] then 60 else 0) +
    (if authLoginHit ws then 20 else 0) + (if authTokenHit ws then 20 else 0)

/-- Model of `scoreAuthentication` in scanner.js. -/
def scoreAuthentication (parse : String → Option PkgJson) (ws : List Entry) : CategoryScore :=
  { name := "Authentication"
    score := min (authRawScore parse ws) 100
    status :=
      if authRawScore parse ws ≥ 70 then "pass"
      else if authRawScore parse ws ≥ 40 then "warning"
      else "critical"
    findings :=
      (if authDetectedLibs parse ws ≠ [] then
         ["Authentication library detected: " ++ joinComma (authDetectedLibs parse ws)]
       else []) ++
        (if authLoginHit ws then ["Login functionality detected"] else []) ++
        (if authTokenHit ws then ["Token/session management detected"] else []) ++
        (if authRawScore parse ws = 0 then ["No authentication system detected"] else [])
    suggestion :=
      if authRawScore parse ws < 70 then "Add authentication with Clerk, Auth0, or NextAuth.js"
      else "Authentication system in place"
    fixAvailable := authRawScore parse ws < 70 }

/-- The fixed ORM lookup table of `scoreDatabase`. -/
def ormsList : List String :=
  ["prisma", "@prisma/client", "drizzle-orm", "mongoose", "typeorm", "sequelize"]

/-- The fixed database-client lookup table of `scoreDatabase`. -/
def dbClientsList : List String :=
  ["@supabase/supabase-js", "firebase", "mongodb", "mysql2", "pg", "sqlite3",
   "better-sqlite3"]

/-- ORMs found among declared dependencies (empty without a manifest). -/
def dbDetectedOrms (parse : String → Option PkgJson) (ws : List Entry) : List String :=
  if fileExists ws "package.json" then
    ormsList.filter fun o => (allDepsOf (readJsonFile parse ws "package.json")).contains o
  else []

/-- Database clients found among declared dependencies. -/
def dbDetectedClients (parse : String → Option PkgJson) (ws : List Entry) : List String :=
  if fileExists ws "package.json" then
    dbClientsList.filter fun c =>
      (allDepsOf (readJsonFile parse ws "package.json")).contains c
  else []

/-- Schema-file condition of `scoreDatabase`. -/
def dbSchemaHit (ws : List Entry) : Bool :=
  fileExists ws "prisma/schema.prisma" || fileExists ws "drizzle.config.js" ||
    0 < (searchInFiles ws [".sql"] []).length

/-- The accumulated database score before clamping. -/
def dbRawScore (parse : String → Option PkgJson) (ws : List Entry) : Int :=
  (if dbDetectedOrms parse ws ≠ [] then 50 else 0) +
    (if dbDetectedClients parse ws ≠ [] then 30 else 0) +
    (if dbSchemaHit ws then 20 else 0)

/-- Model of `scoreDatabase` in scanner.js. -/
def scoreDatabase (parse : String → Option PkgJson) (ws : List Entry) : CategoryScore :=
  { name := "Database"
    score := min (dbRawScore parse ws) 100
    status :=
      if dbRawScore parse ws ≥ 70 then "pass"
      else if dbRawScore parse ws ≥ 30 then "warning"
      else "critical"
    findings :=
      (if dbDetectedOrms parse ws ≠ [] then
         ["ORM detected: " ++ joinComma (dbDetectedOrms parse ws)] else []) ++
        (if dbDetectedClients parse ws ≠ [] then
           ["Database client detected: " ++ joinComma (dbDetectedClients parse ws)]
         else []) ++
        (if dbSchemaHit ws then ["Database schema files detected"] else []) ++
        (if dbRawScore parse ws = 0 then ["No database integration detected"] else [])
    suggestion :=
      if dbRawScore parse ws < 70 then "Add database integration with Prisma, Supabase, or similar"
      else "Database integration looks good"
    fixAvailable := dbRawScore parse ws < 70 }

/-- The payment-provider branch of `scorePayments`: the finding of the first
matching provider, or `none`. -/
def paymentsProviderFinding (parse : String → Option PkgJson) (ws : List Entry) : Option String :=
  if fileExists ws "package.json" then
    let deps := allDepsOf (readJsonFile parse ws "package.json")
    if deps.contains "stripe" || deps.contains "@stripe/stripe-js" then
      some "Stripe payment integration detected"
    else if deps.contains "@paddle/paddle-js" then
      some "Paddle payment integration detected"
    else if deps.contains "@lemon-squeezy/lemon-squeezy-js" then
      some "Lemon Squeezy payment integration detected"
    else none
  else none

/-- Model of `scorePayments` in scanner.js: binary 100/0, zero giving status
`warning` because payments are optional, the name pushed unconditionally. -/
def scorePayments (parse : String → Option PkgJson) (ws : List Entry) : CategoryScore :=
  { name := "Payments"
    score := if (paymentsProviderFinding parse ws).isSome then 100 else 0
    status := if (paymentsProviderFinding parse ws).isSome then "pass" else "warning"
    findings :=
      match paymentsProviderFinding parse ws with
      | some f => [f]
      | none => ["No payment system detected"]
    suggestion :=
      if (paymentsProviderFinding parse ws).isSome then "Payment system integrated"
      else "Consider adding payment processing with Stripe for monetization"
    fixAvailable := !(paymentsProviderFinding parse ws).isSome }

/-- One secret-shape pattern of `scoreSecurity`: a literal head, a character
class, a minimum run length, and whether the count is exact (`{n}`) or
open-ended (`{n,}`, matched greedily). -/
structure KeyPattern where
  pfx : List Char
  cls : Char → Bool
  minRun : Nat
  exactCount : Bool

/-- The regex class `[a-zA-Z0-9]`. -/
def alnumChar (c : Char) : Bool :=
  ('a' ≤ c && c ≤ 'z') || ('A' ≤ c && c ≤ 'Z') || ('0' ≤ c && c ≤ '9')

/-- The regex class `[A-Z0-9]`. -/
def upperDigitChar (c : Char) : Bool :=
  ('A' ≤ c && c ≤ 'Z') || ('0' ≤ c && c ≤ '9')

/-- The five `apiKeyPatterns` regexes of `scoreSecurity`, in order. -/
def apiKeyPatternList : List KeyPattern :=
  [⟨"sk_".toList, alnumChar, 24, false⟩,
   ⟨"pk_".toList, alnumChar, 24, false⟩,
   ⟨"ghp_".toList, alnumChar, 36, true⟩,
   ⟨"AKIA".toList, upperDigitChar, 16, true⟩,
   ⟨[], alnumChar, 32, false⟩]

/-- End offset of a pattern match anchored at the head of `cs`, if any. -/
def matchEndHere (p : KeyPattern) (cs : List Char) : Option Nat :=
  if p.pfx.isPrefixOf cs then
    let run := ((cs.drop p.pfx.length).takeWhile p.cls).length
    if p.minRun ≤ run then
      some (p.pfx.length + (if p.exactCount then p.minRun else run))
    else none
  else none

/-- End offset of the first match of a pattern anywhere in `cs`, if any. -/
def searchMatchEnd (p : KeyPattern) : List Char → Option Nat
  | [] => matchEndHere p []
  | c :: rest =>
    match matchEndHere p (c :: rest) with
    | some e => some e
    | none => (searchMatchEnd p rest).map (· + 1)

/-- Model of `regex.test(content)` for a regex carrying the `g` flag: the
search starts at the regex's `lastIndex`; on a hit `lastIndex` advances to
the match end, on a miss it resets to 0. The same regex objects are reused
across all files of one `scoreSecurity` call, so this state threads through
the whole file loop. -/
def regexTestG (p : KeyPattern) (content : List Char) (lastIndex : Nat) : Bool × Nat :=
  match searchMatchEnd p (content.drop lastIndex) with
  | some e => (true, lastIndex + e)
  | none => (false, 0)

/-- Runs every pattern once against one file's content, threading each
pattern's `lastIndex` and counting hits. -/
def stepPatterns (content : List Char) : List (KeyPattern × Nat) → List (KeyPattern × Nat) × Nat
  | [] => ([], 0)
  | (p, li) :: rest =>
    let hit := regexTestG p content li
    let r := stepPatterns content rest
    ((p, hit.2) :: r.1, (if hit.1 then 1 else 0) + r.2)

/-- Fresh regex objects at the start of a `scoreSecurity` call. -/
def initPatternStates : List (KeyPattern × Nat) :=
  apiKeyPatternList.map fun p => (p, 0)

/-- The hardcoded-key loop of `scoreSecurity` over the candidate files:
counts the hits that are charged (the test always runs, but a hit in a path
containing `.env.example` is not charged) and collects the findings. -/
def securityScanFiles (ws : List Entry) :
    List String → List (KeyPattern × Nat) → Nat × List String
  | [], _ => (0, [])
  | f :: rest, states =>
    let step := stepPatterns (readFile ws f).toList states
    let counted := if strIncludes f ".env.example" then 0 else step.2
    let r := securityScanFiles ws rest step.1
    (counted + r.1,
      List.replicate counted ("Potential hardcoded API key found in " ++ f) ++ r.2)

/-- Committed dotenv-file condition of `scoreSecurity`. -/
def securityEnvHit (ws : List Entry) : Bool :=
  fileExists ws ".env" || fileExists ws ".env.local" || fileExists ws ".env.production"

/-- The candidate files scanned for hardcoded keys. -/
def securityAllFiles (ws : List Entry) : List String :=
  getAllFiles ws [".js", ".ts", ".jsx", ".tsx", ".py", ".env.example"]

/-- Number of charged hardcoded-key hits. -/
def securityKeyHits (ws : List Entry) : Nat :=
  (securityScanFiles ws (securityAllFiles ws) initPatternStates).1

/-- Findings produced by the hardcoded-key loop. -/
def securityKeyFindings (ws : List Entry) : List String :=
  (securityScanFiles ws (securityAllFiles ws) initPatternStates).2

/-- Missing `.gitignore` condition. -/
def securityGitignoreMissing (ws : List Entry) : Bool :=
  !fileExists ws ".gitignore"

/-- `.gitignore` present but covering no `.env` entry. -/
def securityGitignoreUncovered (ws : List Entry) : Bool :=
  fileExists ws ".gitignore" &&
    !strIncludes (readFile ws ".gitignore") ".env" &&
    !strIncludes (readFile ws ".gitignore") "*.env"

/-- CORS/Helmet middleware condition (noted, zero points). -/
def securityCorsHit (ws : List Entry) : Bool :=
  searchInContent ws "cors" || searchInContent ws "helmet"

/-- The security score after all deductions, before the floor at 0. -/
def securityRawScore (ws : List Entry) : Int :=
  100 - (if securityEnvHit ws then 50 else 0) - 30 * (securityKeyHits ws : Int) -
    (if securityGitignoreMissing ws then 20 else 0) -
    (if securityGitignoreUncovered ws then 15 else 0)

/-- `score = Math.max(0, score)` of `scoreSecurity`. -/
def securityScore (ws : List Entry) : Int :=
  max 0 (securityRawScore ws)

/-- Status after the dotenv check. -/
def securityStatusEnv (ws : List Entry) : String :=
  if securityEnvHit ws then "critical" else "pass"

/-- Status after the hardcoded-key loop. -/
def securityStatusKeys (ws : List Entry) : String :=
  if 0 < securityKeyHits ws then "critical" else securityStatusEnv ws

/-- Status after the `.gitignore` checks (only ever upgrades pass → warning). -/
def securityStatusIgnore (ws : List Entry) : String :=
  if securityGitignoreMissing ws || securityGitignoreUncovered ws then
    (if securityStatusKeys ws = "pass" then "warning" else securityStatusKeys ws)
  else securityStatusKeys ws

/-- Final status assignment of `scoreSecurity`, guarded on not-critical. -/
def securityStatusFinal (ws : List Entry) : String :=
  if securityScore ws ≥ 80 ∧ securityStatusIgnore ws ≠ "critical" then "pass"
  else if securityScore ws ≥ 50 ∧ securityStatusIgnore ws ≠ "critical" then "warning"
  else securityStatusIgnore ws

/-- Model of `scoreSecurity` in scanner.js. -/
def scoreSecurity (ws : List Entry) : CategoryScore :=
  { name := "Security"
    score := securityScore ws
    status := securityStatusFinal ws
    findings :=
      (if securityEnvHit ws then ["CRITICAL: .env file committed to repository"] else []) ++
        securityKeyFindings ws ++
        (if securityGitignoreMissing ws then ["No .gitignore file found"]
         else if securityGitignoreUncovered ws then [".env files not ignored in .gitignore"]
         else []) ++
        (if securityCorsHit ws then ["Security middleware (CORS/Helmet) detected"] else [])
    suggestion :=
      if securityScore ws < 80 then
        "Review security practices: avoid committing secrets, add .gitignore, use environment variables"
      else "Security practices look good"
    fixAvailable := securityScore ws < 80 }

/-- Build-script condition of `scoreDeploymentReady` (inside the manifest guard). -/
def deployBuildHit (parse : String → Option PkgJson) (ws : List Entry) : Bool :=
  fileExists ws "package.json" && hasBuildScript (readJsonFile parse ws "package.json")

/-- Start-script condition of `scoreDeploymentReady`. -/
def deployStartHit (parse : String → Option PkgJson) (ws : List Entry) : Bool :=
  fileExists ws "package.json" && hasStartScript (readJsonFile parse ws "package.json")

/-- PORT-handling condition; note it is also inside the manifest guard. -/
def deployPortHit (ws : List Entry) : Bool :=
  fileExists ws "package.json" && searchInContent ws "process.env.PORT"

/-- Platform-config condition (noted, zero points). -/
def deployConfigHit (ws : List Entry) : Bool :=
  fileExists ws "vercel.json" || fileExists ws "netlify.toml" ||
    fileExists ws ".railway.json"

/-- The accumulated deployment score before clamping. -/
def deployRawScore (parse : String → Option PkgJson) (ws : List Entry) : Int :=
  (if deployBuildHit parse ws then 25 else 0) +
    (if deployStartHit parse ws then 25 else 0) +
    (if deployPortHit ws then 20 else 0) +
    (if fileExists ws "Dockerfile" then 30 else 0)

/-- Model of `scoreDeploymentReady` in scanner.js. -/
def scoreDeploymentReady (parse : String → Option PkgJson) (ws : List Entry) : CategoryScore :=
  { name := "Deployment Ready"
    score := min (deployRawScore parse ws) 100
    status :=
      if deployRawScore parse ws ≥ 70 then "pass"
      else if deployRawScore parse ws ≥ 40 then "warning"
      else "critical"
    findings :=
      (if deployBuildHit parse ws then ["Build script configured"] else []) ++
        (if deployStartHit parse ws then ["Start script configured"] else []) ++
        (if deployPortHit ws then ["PORT environment variable handling detected"] else []) ++
        (if fileExists ws "Dockerfile" then ["Dockerfile present"] else []) ++
        (if deployConfigHit ws then ["Deployment configuration file detected"] else []) ++
        (if deployRawScore parse ws = 0 then ["No deployment configuration detected"] else [])
    suggestion :=
      if deployRawScore parse ws < 70 then
        "Add build/start scripts and environment variable handling for deployment"
      else "Ready for deployment"
    fixAvailable := deployRawScore parse ws < 70 }

/-- The fixed category weights of `calculateShipScore` (JavaScript numeric
literals modelled as exact rationals). Unknown names fall back to 0
(`weights[category.name] || 0`). -/
def jsWeight (n : String) : ℚ :=
  if n = "Frontend" then 20 / 100
  else if n = "Backend" then 15 / 100
  else if n = "Authentication" then 15 / 100
  else if n = "Database" then 15 / 100
  else if n = "Payments" then 10 / 100
  else if n = "Security" then 10 / 100
  else if n = "Deployment Ready" then 15 / 100
  else 0

/-- Model of `calculateShipScore` in scanner.js: weighted sum over the
category list, `Math.round`ed (half up). -/
def calculateShipScore (cats : List CategoryScore) : Int :=
  ⌊((cats.map fun c => (c.score : ℚ) * jsWeight c.name).sum + 1 / 2 : ℚ)⌋

/-- The object returned by `scan()` in scanner.js. -/
structure ScanReport where
  shipScore : Int
  stackDetection : StackDetection
  categories : List CategoryScore
deriving Repr, DecidableEq

/-- Model of `scan()` in scanner.js: detect the stack, run the seven scorers
in order, aggregate. Total: every fallible read below it is caught locally. -/
def scan (parse : String → Option PkgJson) (ws : List Entry) : ScanReport :=
  let cats :=
    [scoreFrontend parse ws, scoreBackend ws, scoreAuthentication parse ws,
     scoreDatabase parse ws, scorePayments parse ws, scoreSecurity ws,
     scoreDeploymentReady parse ws]
  { shipScore := calculateShipScore cats
    stackDetection := detectStack parse ws
    categories := cats }

/-! Models of the server file: rate limiter, URL validation, clone size
check, error mapping, cleanup. -/

/-- `windowMs` of the rate limiter: one hour in milliseconds. -/
def windowMs : Int := 3600000

/-- `maxRequests` of the rate limiter. -/
def maxRequests : Nat := 10

/-- The rejection payload's `retryAfter: Math.ceil(windowMs / 1000)`,
written as the ceiling division of nonnegative integers. -/
def retryAfterSeconds : Int := (windowMs + 999) / 1000

/-- Outcome of one `rateLimit` middleware call. -/
inductive AdmitResult where
  | allowed
  | rejected (retryAfter : Int)
deriving Repr, DecidableEq

/-- Number of stored timestamps still inside the trailing window at `now`. -/
def freshCount (ts : List Int) (now : Int) : Nat :=
  (ts.filter fun t => now - t < windowMs).length

/-- Model of one `rateLimit` call for a single client: filter the stored
timestamps to the trailing window; reject when the quota is reached (the
stored list is left untouched), otherwise store the filtered list plus the
new timestamp and admit. -/
def rateLimitStep (ts : List Int) (now : Int) : AdmitResult × List Int :=
  let recent := ts.filter fun t => now - t < windowMs
  if maxRequests ≤ recent.length then (.rejected retryAfterSeconds, ts)
  else (.allowed, recent ++ [now])

/-- The call-by-call trace of the guard for one client, from a given stored
list: each element is the call time paired with whether it was admitted. -/
def guardTrace (ts : List Int) : List Int → List (Int × Bool)
  | [] => []
  | c :: rest =>
    let r := rateLimitStep ts c
    (c, r.1 = .allowed) :: guardTrace r.2 rest

/-- Number of admitted calls of a trace whose time lies in `[T, T + windowMs)`. -/
def admittedIn (tr : List (Int × Bool)) (T : Int) : Nat :=
  tr.countP fun p => p.2 && decide (T ≤ p.1) && decide (p.1 < T + windowMs)

/-- Character class `[a-zA-Z0-9_.-]` of the GitHub URL regex. -/
def urlSegChar (c : Char) : Bool :=
  alnumChar c || c = '_' || c = '.' || c = '-'

/-- Model of `isValidGitHubUrl`: the anchored regex
`https://github.com/ owner / name /?` with owner and name nonempty runs of
`[a-zA-Z0-9_.-]`, matched by maximal munch (exact, since `/` is not a
segment character). -/
def isValidGitHubUrl (url : String) : Bool :=
  let cs := url.toList
  let pre := "https://github.com/".toList
  if pre.isPrefixOf cs then
    let rest := cs.drop pre.length
    let owner := rest.takeWhile urlSegChar
    match rest.drop owner.length with
    | '/' :: rest2 =>
      let nm := rest2.takeWhile urlSegChar
      decide (owner ≠ []) && decide (nm ≠ []) &&
        (rest2.drop nm.length = [] || rest2.drop nm.length = ['/'])
    | _ => false
  else false

/-- The two pre-fetch rejections of the `/api/scan` handler. -/
inductive ScanRejection where
  | missingUrl
  | invalidUrl
deriving Repr, DecidableEq

/-- What the `/api/scan` handler does with a reference before any
subprocess: reject on a falsy body field, reject on a failed URL
validation, or proceed to clone exactly the given URL. -/
inductive HandlerAction where
  | reject (r : ScanRejection)
  | clone (url : String)
deriving Repr, DecidableEq

/-- Model of the validation section of `app.post('/api/scan')`: the order of
the two guards ahead of `cloneRepository`. -/
def scanRequestAction (repoUrl : String) : HandlerAction :=
  if repoUrl = "" then .reject .missingUrl
  else if isValidGitHubUrl repoUrl then .clone repoUrl
  else .reject .invalidUrl

/-- A node of the cloned tree as seen by `getDirSize`: only names and byte
sizes matter there. -/
inductive FsNode where
  | file (name : String) (size : Nat)
  | dir (name : String) (entries : List FsNode)

/-- The 100MB `sizeLimit` of `cloneRepository`. -/
def sizeLimit : Nat := 104857600

mutual
/-- The size contribution of one entry in the `getDirSize` loop: `stat.size`
for a file, the recursive `getDirSize(filePath)` (with its own fresh local
accumulator, which may itself throw) for a directory. -/
def getDirEntry : FsNode → Except String Nat
  | .file _ sz => .ok sz
  | .dir _ sub => getDirEntries sub 0

/-- The `for (const file of files)` loop of `getDirSize`: `size` is the
per-directory running accumulator; after each entry is added the local
total is checked against the limit and the walk throws
`Repository too large` the moment it exceeds it. -/
def getDirEntries : List FsNode → Nat → Except String Nat
  | [], size => .ok size
  | e :: rest, size =>
    match getDirEntry e with
    | .error msg => .error msg
    | .ok sz =>
      let s := size + sz
      if sizeLimit < s then .error "Repository too large" else getDirEntries rest s
end

/-- `getDirSize(tempDir)` on the root of the cloned tree. -/
def getDirSize (tree : List FsNode) : Except String Nat :=
  getDirEntries tree 0

mutual
/-- Byte size of one node (specification-side measure). -/
def nodeSize : FsNode → Nat
  | .file _ sz => sz
  | .dir _ sub => totalSize sub

/-- Total byte size of a tree (specification-side measure). -/
def totalSize : List FsNode → Nat
  | [] => 0
  | e :: rest => nodeSize e + totalSize rest
end

/-- Model of `cloneRepository` after a successful `git clone`: the size walk
runs, and any thrown error is caught and rethrown wrapped in
`Failed to clone repository: `. -/
def cloneRepository (tree : List FsNode) : Except String Unit :=
  match getDirSize tree with
  | .ok _ => .ok ()
  | .error msg => .error ("Failed to clone repository: " ++ msg)

/-- Model of the catch block of `app.post('/api/scan')`: maps a thrown
error message to the HTTP status and user-visible message, by substring
tests in source order. -/
def classifyScanError (msg : String) : Nat × String :=
  if strIncludes msg "Failed to clone" then
    (400, "Could not access repository. It may be private, deleted, or the URL is incorrect.")
  else if strIncludes msg "too large" then
    (400, "Repository is too large (>100MB). Please try a smaller repository.")
  else if strIncludes msg "timeout" then
    (408, "Scan took too long to complete. Please try again or choose a smaller repository.")
  else (500, "Internal server error")

/-- Model of `cleanupTempDir`: best-effort recursive delete; afterwards the
directory no longer exists. -/
def cleanupTempDir (_dirExists : Bool) : Bool := false

/-- The fetch step of the handler with its `finally` block: the response
classification of a failed clone, paired with whether the workspace
directory still exists afterwards. -/
def scanFetchOutcome (tree : List FsNode) : Except (Nat × String) Unit × Bool :=
  match cloneRepository tree with
  | .ok () => (.ok (), cleanupTempDir true)
  | .error m => (.error (classifyScanError m), cleanupTempDir true)

/-! Concrete fixtures used by witnesses and counterexamples. -/

/-- A JSON parse under which every content is malformed; used with concrete
workspaces that carry no manifest or an unparsable one. -/
def parseNone : String → Option PkgJson := fun _ => none

/-- A workspace holding a single static `index.html`. -/
def staticWs (content : String) : List Entry := [Entry.file "index.html" content]

/-- The content marker substrings that the six categories of the
static-site scenario search for through `searchInContent` (written
lowercase, as the search lowercases both sides). -/
def scenarioAMarkers : List String :=
  ["viewport", "responsive", "@media", "express()", "app.listen", "fastify()",
   "flask", "django", "fastapi", "/api/", "app.get", "app.post", "@app.route",
   "login", "password", "jwt", "token", "session"]

/-- Modelled from the spec: first-match resolution over a fixed ordered
candidate list of (dependency name, technology label) pairs, yielding
"None" when no candidate matches. Stated from the spec's words so the
source's `detectFramework` and `detectBuildTool` can be compared to it. -/
def specFirstMatch (deps : List String) : List (String × String) → String
  | [] => "None"
  | (d, label) :: rest => if deps.contains d then label else specFirstMatch deps rest

/-- Framework candidates in the source's priority order. -/
def frameworkCandidates : List (String × String) :=
  [("next", "Next.js"), ("react", "React"), ("vue", "Vue.js"), ("svelte", "Svelte")]

/-- Build-tool dependency candidates in the source's priority order. -/
def buildToolCandidates : List (String × String) :=
  [("vite", "Vite"), ("webpack", "Webpack")]

/-- A manifest declaring react only as a devDependency. -/
def pkgDevReact : PkgJson := ⟨some [], some ["react"], none⟩

/-- A parse resolving exactly the content `PKG` to `pkgDevReact`. -/
def parseDevReact : String → Option PkgJson :=
  fun s => if s = "PKG" then some pkgDevReact else none

/-- A workspace whose manifest declares react only as a devDependency. -/
def wsDevReact : List Entry := [Entry.file "package.json" "PKG"]

/-- A workspace containing only a committed `.env.local`. -/
def wsEnvLocal : List Entry := [Entry.file ".env.local" "SECRET"]

/-- A workspace containing only a committed `.env`. -/
def wsEnvPlain : List Entry := [Entry.file ".env" "API_KEY=123"]

/-- A workspace with a static page and a stylesheet but no manifest. -/
def wsCssNoManifest : List Entry :=
  [Entry.file "index.html" "static page", Entry.file "style.css" "body color red"]

/-- A workspace whose manifest is present but unparsable. -/
def wsBadJson : List Entry := [Entry.file "package.json" "not json at all"]

/-- A cloned tree one byte over the 100MB ceiling. -/
def tooLargeTree : List FsNode := [FsNode.file "payload.bin" 104857601]

/-- A concrete category value used to exercise the aggregator. -/
def catW1 : CategoryScore := ⟨"Frontend", 100, "pass", [], "ok", false⟩

/-- A second concrete category value used to exercise the aggregator. -/
def catW2 : CategoryScore := ⟨"Security", 55, "warning", [], "ok", false⟩

/-! Helper lemmas. -/

theorem jsWeight_frontend : jsWeight "Frontend" = 20 / 100 := by
  unfold jsWeight; rw [if_pos rfl]

theorem jsWeight_backend : jsWeight "Backend" = 15 / 100 := by
  unfold jsWeight; rw [if_neg (by decide), if_pos rfl]

theorem jsWeight_auth : jsWeight "Authentication" = 15 / 100 := by
  unfold jsWeight; rw [if_neg (by decide), if_neg (by decide), if_pos rfl]

theorem jsWeight_db : jsWeight "Database" = 15 / 100 := by
  unfold jsWeight
  rw [if_neg (by decide), if_neg (by decide), if_neg (by decide), if_pos rfl]

theorem jsWeight_payments : jsWeight "Payments" = 10 / 100 := by
  unfold jsWeight
  rw [if_neg (by decide), if_neg (by decide), if_neg (by decide), if_neg (by decide),
    if_pos rfl]

theorem jsWeight_security : jsWeight "Security" = 10 / 100 := by
  unfold jsWeight
  rw [if_neg (by decide), if_neg (by decide), if_neg (by decide), if_neg (by decide),
    if_neg (by decide), if_pos rfl]

theorem jsWeight_deploy : jsWeight "Deployment Ready" = 15 / 100 := by
  unfold jsWeight
  rw [if_neg (by decide), if_neg (by decide), if_neg (by decide), if_neg (by decide),
    if_neg (by decide), if_neg (by decide), if_pos rfl]

theorem jsWeight_other (n : String) (h1 : n ≠ "Frontend") (h2 : n ≠ "Backend")
    (h3 : n ≠ "Authentication") (h4 : n ≠ "Database") (h5 : n ≠ "Payments")
    (h6 : n ≠ "Security") (h7 : n ≠ "Deployment Ready") : jsWeight n = 0 := by
  unfold jsWeight
  rw [if_neg h1, if_neg h2, if_neg h3, if_neg h4, if_neg h5, if_neg h6, if_neg h7]

theorem staticWs_search_false (content t : String)
    (h : strIncludes (strToLower content) (strToLower t) = false) :
    searchInContent (staticWs content) t = false := by
  show (strIncludes (strToLower content) (strToLower t) || false) = false
  rw [h]
  rfl

theorem freshFilter_comm (ts : List Int) {c c' : Int} (h : c ≤ c') :
    (ts.filter fun t => c - t < windowMs).filter (fun t => c' - t < windowMs) =
      ts.filter fun t => c' - t < windowMs := by
  induction ts with
  | nil => rfl
  | cons a l ih =>
    simp only [List.filter_cons]
    by_cases h1 : c' - a < windowMs
    · have h2 : c - a < windowMs := by omega
      simp [h1, h2, ih]
    · by_cases h2 : c - a < windowMs <;> simp [h1, h2, ih]

theorem freshCount_state_update (ts : List Int) {c c' : Int} (h : c ≤ c') :
    freshCount ((ts.filter fun t => c - t < windowMs) ++ [c]) c' =
      freshCount ts c' + (if c' - c < windowMs then 1 else 0) := by
  unfold freshCount
  rw [List.filter_append, List.length_append, freshFilter_comm ts h]
  congr 1
  by_cases hc : c' - c < windowMs <;> simp [hc]

theorem rateLimitStep_reject {ts : List Int} {now : Int}
    (h : maxRequests ≤ freshCount ts now) :
    rateLimitStep ts now = (.rejected retryAfterSeconds, ts) := by
  unfold freshCount at h
  simp only [rateLimitStep]
  rw [if_pos h]

theorem rateLimitStep_allow {ts : List Int} {now : Int}
    (h : freshCount ts now < maxRequests) :
    rateLimitStep ts now = (.allowed, (ts.filter fun t => now - t < windowMs) ++ [now]) := by
  unfold freshCount at h
  simp only [rateLimitStep]
  rw [if_neg (by omega)]

theorem guardTrace_cons (ts : List Int) (c : Int) (rest : List Int) :
    guardTrace ts (c :: rest) =
      (c, decide ((rateLimitStep ts c).1 = .allowed)) ::
        guardTrace (rateLimitStep ts c).2 rest := rfl

theorem admittedIn_cons (p : Int × Bool) (tr : List (Int × Bool)) (T : Int) :
    admittedIn (p :: tr) T =
      admittedIn tr T +
        (if (p.2 && decide (T ≤ p.1) && decide (p.1 < T + windowMs)) = true then 1 else 0) := by
  unfold admittedIn
  rw [List.countP_cons]

theorem guard_window_bound :
    ∀ (calls ts : List Int) (n : Nat) (T : Int),
      List.Pairwise (· ≤ ·) calls → n ≤ maxRequests →
      (∀ c ∈ calls, c < T + windowMs → n ≤ freshCount ts c) →
      admittedIn (guardTrace ts calls) T + n ≤ maxRequests := by
  intro calls
  induction calls with
  | nil => intro ts n T _ hn _; simpa [guardTrace, admittedIn] using hn
  | cons c rest ih =>
    intro ts n T hsort hn hinv
    rw [List.pairwise_cons] at hsort
    obtain ⟨hle, hsort'⟩ := hsort
    by_cases hfull : maxRequests ≤ freshCount ts c
    · rw [guardTrace_cons, rateLimitStep_reject hfull, admittedIn_cons]
      have hz : (decide ((AdmitResult.rejected retryAfterSeconds, ts).1 = AdmitResult.allowed) &&
          decide (T ≤ c) && decide (c < T + windowMs)) = false := by
        simp
      rw [hz]
      simp only [if_neg (by simp : ¬ (false = true))]
      have := ih ts n T hsort' hn fun c' hm hlt => hinv c' (List.mem_cons_of_mem _ hm) hlt
      omega
    · push_neg at hfull
      rw [guardTrace_cons, rateLimitStep_allow hfull, admittedIn_cons]
      by_cases hcin : T ≤ c ∧ c < T + windowMs
      · have hn' : n + 1 ≤ maxRequests := by
          have h1 := hinv c (List.mem_cons_self c rest) hcin.2
          omega
        have hinv' : ∀ c' ∈ rest, c' < T + windowMs →
            n + 1 ≤ freshCount ((ts.filter fun t => c - t < windowMs) ++ [c]) c' := by
          intro c' hm hlt
          have hcc' : c ≤ c' := hle c' hm
          rw [freshCount_state_update ts hcc']
          have h2 := hinv c' (List.mem_cons_of_mem _ hm) hlt
          have h3 : c' - c < windowMs := by omega
          rw [if_pos h3]
          omega
        have hb := ih _ (n + 1) T hsort' hn' hinv'
        have hone : (decide (((AdmitResult.allowed,
            (ts.filter fun t => c - t < windowMs) ++ [c]) :
              AdmitResult × List Int).1 = AdmitResult.allowed) &&
            decide (T ≤ c) && decide (c < T + windowMs)) = true := by
          simp [hcin.1, hcin.2]
        rw [hone]
        simp only [if_true, eq_self_iff_true]
        omega
      · have hinv' : ∀ c' ∈ rest, c' < T + windowMs →
            n ≤ freshCount ((ts.filter fun t => c - t < windowMs) ++ [c]) c' := by
          intro c' hm hlt
          have hcc' : c ≤ c' := hle c' hm
          rw [freshCount_state_update ts hcc']
          have h2 := hinv c' (List.mem_cons_of_mem _ hm) hlt
          by_cases h3 : c' - c < windowMs
          · rw [if_pos h3]; omega
          · rw [if_neg h3]; omega
        have hb := ih _ n T hsort' hn hinv'
        have hzero : (decide (((AdmitResult.allowed,
            (ts.filter fun t => c - t < windowMs) ++ [c]) :
              AdmitResult × List Int).1 = AdmitResult.allowed) &&
            decide (T ≤ c) && decide (c < T + windowMs)) = false := by
          rcases not_and_or.mp hcin with h | h <;> simp [h]
        rw [hzero]
        simp only [if_neg (by simp : ¬ (false = true))]
        omega

/-! Claim theorems. -/

/-- C1 counterexample: the empty reference string does not match the
allow-list pattern, yet the handler rejects it with the missing-URL error
rather than the invalid-reference error, because the `!repoUrl` guard runs
first. -/
theorem C1_counterexample :
    isValidGitHubUrl "" = false ∧
    scanRequestAction "" ≠ HandlerAction.reject ScanRejection.invalidUrl ∧
    scanRequestAction "" = HandlerAction.reject ScanRejection.missingUrl := by
  refine ⟨by decide, by decide, by decide⟩

/-- C1 (amended): a reference matching the strict GitHub pattern always
proceeds to the clone of exactly that reference and is never rejected as an
invalid reference; a nonempty non-matching reference is always rejected as
an invalid reference; the empty reference is rejected as missing; and no
non-matching reference ever reaches the clone step, so no fetch happens
before the validation decision. -/
theorem C1_validation :
    (∀ url, isValidGitHubUrl url = true → scanRequestAction url = .clone url) ∧
    (∀ url, url ≠ "" → isValidGitHubUrl url = false →
      scanRequestAction url = .reject .invalidUrl) ∧
    scanRequestAction "" = .reject .missingUrl ∧
    (∀ url u, isValidGitHubUrl url = false → scanRequestAction url ≠ .clone u) := by
  refine ⟨?_, ?_, by decide, ?_⟩
  · intro url h
    have hne : ¬ (url = "") := by
      intro he
      rw [he] at h
      exact absurd h (by decide)
    unfold scanRequestAction
    rw [if_neg hne, if_pos h]
  · intro url hne h
    unfold scanRequestAction
    rw [if_neg hne, if_neg (by rw [h]; exact Bool.false_ne_true)]
  · intro url u h
    unfold scanRequestAction
    by_cases he : url = ""
    · rw [if_pos he]
      simp
    · rw [if_neg he, if_neg (by rw [h]; exact Bool.false_ne_true)]
      simp

/-- C1 witness: a well-formed reference is cloned, a wrong-host reference
is rejected as invalid. -/
theorem C1_validation_witness :
    scanRequestAction "https://github.com/NoGraveDev/shovel" =
      .clone "https://github.com/NoGraveDev/shovel" ∧
    scanRequestAction "https://example.com/owner/repo" = .reject .invalidUrl :=
  ⟨C1_validation.1 _ (by decide), C1_validation.2.1 _ (by decide) (by decide)⟩

/-- C3: the aggregator uses the fixed weights of the source (summing to 1),
is the rounded weighted sum of the category scores, yields 0 on an empty
input instead of an error, gives weight 0 to any unknown category name, and
is invariant under permutation of the category list. -/
theorem C3_aggregate_pure :
    (jsWeight "Frontend" = 20 / 100 ∧ jsWeight "Backend" = 15 / 100 ∧
     jsWeight "Authentication" = 15 / 100 ∧ jsWeight "Database" = 15 / 100 ∧
     jsWeight "Payments" = 10 / 100 ∧ jsWeight "Security" = 10 / 100 ∧
     jsWeight "Deployment Ready" = 15 / 100 ∧
     jsWeight "Frontend" + jsWeight "Backend" + jsWeight "Authentication" +
       jsWeight "Database" + jsWeight "Payments" + jsWeight "Security" +
       jsWeight "Deployment Ready" = 1) ∧
    (∀ cats : List CategoryScore,
      calculateShipScore cats =
        ⌊((cats.map fun c => (c.score : ℚ) * jsWeight c.name).sum + 1 / 2 : ℚ)⌋) ∧
    calculateShipScore [] = 0 ∧
    (∀ n, n ≠ "Frontend" → n ≠ "Backend" → n ≠ "Authentication" → n ≠ "Database" →
      n ≠ "Payments" → n ≠ "Security" → n ≠ "Deployment Ready" → jsWeight n = 0) ∧
    (∀ cats1 cats2 : List CategoryScore, cats1.Perm cats2 →
      calculateShipScore cats1 = calculateShipScore cats2) := by
  refine ⟨⟨jsWeight_frontend, jsWeight_backend, jsWeight_auth, jsWeight_db,
      jsWeight_payments, jsWeight_security, jsWeight_deploy, ?_⟩,
    fun cats => rfl, ?_, jsWeight_other, ?_⟩
  · rw [jsWeight_frontend, jsWeight_backend, jsWeight_auth, jsWeight_db,
      jsWeight_payments, jsWeight_security, jsWeight_deploy]
    norm_num
  · show (⌊((List.map _ []).sum + 1 / 2 : ℚ)⌋ : Int) = 0
    norm_num
  · intro l1 l2 h
    unfold calculateShipScore
    rw [(h.map _).sum_eq]

/-- C3 witness: order invariance and the zero weight of an unknown name at
concrete inputs. -/
theorem C3_aggregate_pure_witness :
    calculateShipScore [catW1, catW2] = calculateShipScore [catW2, catW1] ∧
    jsWeight "Waitlist" = 0 :=
  ⟨C3_aggregate_pure.2.2.2.2 _ _ (List.Perm.swap catW2 catW1 []),
   C3_aggregate_pure.2.2.2.1 "Waitlist" (by decide) (by decide) (by decide) (by decide)
     (by decide) (by decide) (by decide)⟩

/-- C6: evaluation at the failing input. For a cloned tree one byte over
the 100MB ceiling, the size walk throws the moment its running total
exceeds the ceiling (independently of anything after that point), but
`cloneRepository` wraps the message as `Failed to clone repository: ...`
and the handler's error mapper tests `Failed to clone` first, so the caller
receives the could-not-access (unreachable-repository) response, not the
dedicated too-large response, whose branch is dead for this error; the
`finally` cleanup does remove the workspace directory. -/
theorem C6_toolarge_misreported :
    sizeLimit < totalSize tooLargeTree ∧
    (∀ junk : List FsNode,
      getDirSize (FsNode.file "payload.bin" 104857601 :: junk) =
        .error "Repository too large") ∧
    cloneRepository tooLargeTree = .error "Failed to clone repository: Repository too large" ∧
    classifyScanError "Failed to clone repository: Repository too large" =
      (400, "Could not access repository. It may be private, deleted, or the URL is incorrect.") ∧
    classifyScanError "Failed to clone repository: Repository too large" ≠
      (400, "Repository is too large (>100MB). Please try a smaller repository.") ∧
    (scanFetchOutcome tooLargeTree).2 = false :=
  ⟨by decide, fun _ => rfl, rfl, by decide, by decide, rfl⟩

/-- C6 witness: the short-circuit conjunct applied to a concrete sibling
list that is never visited. -/
theorem C6_toolarge_misreported_witness :
    getDirSize (FsNode.file "payload.bin" 104857601 ::
      [FsNode.dir "rest" [FsNode.file "huge.bin" 999999999999]]) =
      .error "Repository too large" :=
  C6_toolarge_misreported.2.1 [FsNode.dir "rest" [FsNode.file "huge.bin" 999999999999]]

/-- C7 counterexample: a manifest declaring react only among
devDependencies. The combined direct-plus-dev dependency list contains
react, but `detectFramework` resolves to `None` because it reads only the
direct dependencies. -/
theorem C7_counterexample :
    (allDepsOf (readJsonFile parseDevReact wsDevReact "package.json")).contains "react" = true ∧
    detectFramework parseDevReact wsDevReact = "None" := by
  refine ⟨by decide, by decide⟩

/-- C7 (amended): `framework` is resolved by first-match priority over the
ordered candidate list next, react, vue, svelte against the direct
dependencies only (devDependencies are not consulted); `buildTool` is
resolved by first-match priority over vite, webpack against direct plus dev
dependencies, with `npm scripts` as a non-dependency fallback when a build
script exists; each is `None` when nothing matches or no manifest exists. -/
theorem C7_first_match :
    ∀ (parse : String → Option PkgJson) (ws : List Entry),
      detectFramework parse ws =
        (if fileExists ws "package.json" then
           specFirstMatch ((readJsonFile parse ws "package.json").dependencies.getD [])
             frameworkCandidates
         else "None") ∧
      detectBuildTool parse ws =
        (if fileExists ws "package.json" then
           (if specFirstMatch (allDepsOf (readJsonFile parse ws "package.json"))
                buildToolCandidates ≠ "None" then
              specFirstMatch (allDepsOf (readJsonFile parse ws "package.json"))
                buildToolCandidates
            else if hasBuildScript (readJsonFile parse ws "package.json") then "npm scripts"
            else "None")
         else "None") := by
  intro parse ws
  constructor
  · simp only [detectFramework, specFirstMatch, frameworkCandidates]
  · simp only [detectBuildTool, specFirstMatch, buildToolCandidates]
    by_cases hp : fileExists ws "package.json" = true
    · rw [if_pos hp, if_pos hp]
      by_cases hv : (allDepsOf (readJsonFile parse ws "package.json")).contains "vite" = true
      · rw [if_pos hv, if_pos hv, if_pos (by decide : ("Vite" : String) ≠ "None")]
      · rw [if_neg hv, if_neg hv]
        by_cases hw :
            (allDepsOf (readJsonFile parse ws "package.json")).contains "webpack" = true
        · rw [if_pos hw, if_pos hw, if_pos (by decide : ("Webpack" : String) ≠ "None")]
        · rw [if_neg hw, if_neg hw,
            if_neg (by decide : ¬ (("None" : String) ≠ "None"))]
    · rw [if_neg hp, if_neg hp]

/-- C7 witness: the first-match characterization instantiated at the
concrete dev-only-react workspace. -/
theorem C7_first_match_witness :
    detectFramework parseDevReact wsDevReact =
      (if fileExists wsDevReact "package.json" then
         specFirstMatch ((readJsonFile parseDevReact wsDevReact "package.json").dependencies.getD [])
           frameworkCandidates
       else "None") ∧
    detectBuildTool parseDevReact wsDevReact =
      (if fileExists wsDevReact "package.json" then
         (if specFirstMatch (allDepsOf (readJsonFile parseDevReact wsDevReact "package.json"))
              buildToolCandidates ≠ "None" then
            specFirstMatch (allDepsOf (readJsonFile parseDevReact wsDevReact "package.json"))
              buildToolCandidates
          else if hasBuildScript (readJsonFile parseDevReact wsDevReact "package.json") then
            "npm scripts"
          else "None")
       else "None") :=
  C7_first_match parseDevReact wsDevReact

/-- C2 counterexample: a workspace whose only dotenv file is `.env.local`.
The status is critical, but no finding names `.env.local`: the single
dotenv finding is the fixed string `CRITICAL: .env file committed to
repository`, which does not contain that file name. -/
theorem C2_counterexample :
    (scoreSecurity wsEnvLocal).status = "critical" ∧
    (scoreSecurity wsEnvLocal).findings.any (fun f => strIncludes f ".env.local") = false ∧
    "CRITICAL: .env file committed to repository" ∈ (scoreSecurity wsEnvLocal).findings := by
  refine ⟨by decide, by decide, by decide⟩

/-- Helper for C2: once a dotenv file is present, the status is critical
after the gitignore checks, whatever the other signals did. -/
theorem securityStatusIgnore_critical {ws : List Entry}
    (h : securityEnvHit ws = true) : securityStatusIgnore ws = "critical" := by
  have h2 : securityStatusKeys ws = "critical" := by
    unfold securityStatusKeys securityStatusEnv
    rw [if_pos h]
    by_cases hk : 0 < securityKeyHits ws
    · rw [if_pos hk]
    · rw [if_neg hk]
  unfold securityStatusIgnore
  rw [h2]
  by_cases hg : (securityGitignoreMissing ws || securityGitignoreUncovered ws) = true
  · rw [if_pos hg, if_neg (by decide : ¬ (("critical" : String) = "pass"))]
  · rw [if_neg hg]

/-- C2 (amended): for every workspace containing any of `.env`,
`.env.local` or `.env.production`, the Security scorer's status is
`critical` regardless of the numeric score and of every other signal, and
its findings include the fixed dotenv finding (which names `.env` but not
the specific dotenv file that triggered it). -/
theorem C2_env_forces_critical (ws : List Entry)
    (h : (fileExists ws ".env" || fileExists ws ".env.local" ||
      fileExists ws ".env.production") = true) :
    (scoreSecurity ws).status = "critical" ∧
    "CRITICAL: .env file committed to repository" ∈ (scoreSecurity ws).findings := by
  have h' : securityEnvHit ws = true := h
  constructor
  · show securityStatusFinal ws = "critical"
    have hIgn := securityStatusIgnore_critical h'
    unfold securityStatusFinal
    rw [hIgn]
    rw [if_neg (by simp), if_neg (by simp)]
  · show "CRITICAL: .env file committed to repository" ∈
      (if securityEnvHit ws then ["CRITICAL: .env file committed to repository"] else []) ++
        securityKeyFindings ws ++
        (if securityGitignoreMissing ws then ["No .gitignore file found"]
         else if securityGitignoreUncovered ws then [".env files not ignored in .gitignore"]
         else []) ++
        (if securityCorsHit ws then ["Security middleware (CORS/Helmet) detected"] else [])
    rw [if_pos h']
    exact List.mem_append_left _ (List.mem_append_left _ (List.mem_append_left _
      (List.mem_singleton_self _)))

/-- C2 witness: a workspace with a committed `.env`. -/
theorem C2_env_forces_critical_witness :
    (scoreSecurity wsEnvPlain).status = "critical" ∧
    "CRITICAL: .env file committed to repository" ∈ (scoreSecurity wsEnvPlain).findings :=
  C2_env_forces_critical wsEnvPlain (by decide)

/-- C9: for every workspace, a manifest whose parse fails is read as the
empty structure instead of raising, a failed raw read is recovered as the
empty string, and the scan still completes with its full seven-category
report. -/
theorem C9_malformed_manifest (parse : String → Option PkgJson) (ws : List Entry)
    (rel : String) (h : parse (readFile ws rel) = none) :
    readJsonFile parse ws rel = emptyPkg ∧
    ((lookupPath ws (splitPath rel)).isNone = true → readFile ws rel = "") ∧
    (scan parse ws).categories.map (fun c => c.name) =
      ["Frontend", "Backend", "Authentication", "Database", "Payments", "Security",
       "Deployment Ready"] := by
  refine ⟨?_, ?_, rfl⟩
  · unfold readJsonFile
    rw [h]
    rfl
  · intro hn
    unfold readFile
    rw [Option.isNone_iff_eq_none.mp hn]

/-- C9 witness: a workspace whose manifest is present but unparsable still
yields the full report and the empty manifest structure. -/
theorem C9_malformed_manifest_witness :
    readJsonFile parseNone wsBadJson "package.json" = emptyPkg ∧
    ((lookupPath wsBadJson (splitPath "package.json")).isNone = true →
      readFile wsBadJson "package.json" = "") ∧
    (scan parseNone wsBadJson).categories.map (fun c => c.name) =
      ["Frontend", "Backend", "Authentication", "Database", "Payments", "Security",
       "Deployment Ready"] :=
  C9_malformed_manifest parseNone wsBadJson "package.json" rfl

/-- C10: without a `package.json` the styling check of the Frontend scorer
is never evaluated, so the 20 styling points are never awarded and no
styling finding appears, even when `.css` files exist; the score cannot
exceed 30. -/
theorem C10_no_styling_without_manifest (parse : String → Option PkgJson)
    (ws : List Entry) (h : fileExists ws "package.json" = false) :
    frontendStylingHit parse ws = false ∧
    "Styling framework/CSS detected" ∉ (scoreFrontend parse ws).findings ∧
    (scoreFrontend parse ws).score ≤ 30 := by
  have hsty : frontendStylingHit parse ws = false := by
    unfold frontendStylingHit
    rw [h]
    rfl
  have hfw : detectFramework parse ws = "None" := by
    unfold detectFramework
    rw [if_neg (by rw [h]; exact Bool.false_ne_true)]
  have hbt : detectBuildTool parse ws = "None" := by
    unfold detectBuildTool
    rw [if_neg (by rw [h]; exact Bool.false_ne_true)]
  refine ⟨hsty, ?_, ?_⟩
  · show "Styling framework/CSS detected" ∉
      frontendFrameworkFindings parse ws ++ frontendBuildFindings parse ws ++
        (if frontendStylingHit parse ws then ["Styling framework/CSS detected"] else []) ++
        (if frontendResponsiveHit ws then ["Responsive design patterns found"] else [])
    unfold frontendFrameworkFindings frontendBuildFindings
    rw [hsty, hfw, hbt]
    rw [if_neg (show ¬ (("None" : String) ≠ "None") by simp),
      if_neg (show ¬ (("None" : String) ≠ "None") by simp),
      if_neg (show ¬ (false = true) by simp)]
    split_ifs <;> decide
  · show min (frontendRawScore parse ws) 100 ≤ 30
    have hraw : frontendRawScore parse ws ≤ 30 := by
      unfold frontendRawScore frontendFrameworkPoints frontendBuildPoints
      rw [hsty, hfw, hbt]
      rw [if_neg (show ¬ (("None" : String) ≠ "None") by simp),
        if_neg (show ¬ (("None" : String) ≠ "None") by simp),
        if_neg (show ¬ (false = true) by simp)]
      split_ifs <;> norm_num
    exact le_trans (min_le_left _ _) hraw

/-- Helper for C5: frontend score bounds. -/
theorem scoreFrontend_bounds (parse : String → Option PkgJson) (ws : List Entry) :
    0 ≤ (scoreFrontend parse ws).score ∧ (scoreFrontend parse ws).score ≤ 100 := by
  have h0 : 0 ≤ frontendRawScore parse ws := by
    unfold frontendRawScore frontendFrameworkPoints frontendBuildPoints
    split_ifs <;> norm_num
  exact ⟨le_min h0 (by norm_num), min_le_right _ _⟩

/-- Helper for C5: backend score bounds. -/
theorem scoreBackend_bounds (ws : List Entry) :
    0 ≤ (scoreBackend ws).score ∧ (scoreBackend ws).score ≤ 100 := by
  have h0 : 0 ≤ backendRawScore ws := by
    unfold backendRawScore
    split_ifs <;> norm_num
  exact ⟨le_min h0 (by norm_num), min_le_right _ _⟩

/-- Helper for C5: authentication score bounds. -/
theorem scoreAuthentication_bounds (parse : String → Option PkgJson) (ws : List Entry) :
    0 ≤ (scoreAuthentication parse ws).score ∧ (scoreAuthentication parse ws).score ≤ 100 := by
  have h0 : 0 ≤ authRawScore parse ws := by
    unfold authRawScore
    split_ifs <;> norm_num
  exact ⟨le_min h0 (by norm_num), min_le_right _ _⟩

/-- Helper for C5: database score bounds. -/
theorem scoreDatabase_bounds (parse : String → Option PkgJson) (ws : List Entry) :
    0 ≤ (scoreDatabase parse ws).score ∧ (scoreDatabase parse ws).score ≤ 100 := by
  have h0 : 0 ≤ dbRawScore parse ws := by
    unfold dbRawScore
    split_ifs <;> norm_num
  exact ⟨le_min h0 (by norm_num), min_le_right _ _⟩

/-- Helper for C5: payments score bounds. -/
theorem scorePayments_bounds (parse : String → Option PkgJson) (ws : List Entry) :
    0 ≤ (scorePayments parse ws).score ∧ (scorePayments parse ws).score ≤ 100 := by
  constructor
  · show (0 : Int) ≤ if (paymentsProviderFinding parse ws).isSome then 100 else 0
    split_ifs <;> norm_num
  · show (if (paymentsProviderFinding parse ws).isSome then (100 : Int) else 0) ≤ 100
    split_ifs <;> norm_num

/-- Helper for C5: security score bounds; the floor at 0 absorbs arbitrary
deductions and nothing is ever added above the initial 100. -/
theorem scoreSecurity_bounds (ws : List Entry) :
    0 ≤ (scoreSecurity ws).score ∧ (scoreSecurity ws).score ≤ 100 := by
  have h1 : securityRawScore ws ≤ 100 := by
    unfold securityRawScore
    split_ifs <;> omega
  refine ⟨le_max_left _ _, ?_⟩
  show max 0 (securityRawScore ws) ≤ 100
  exact max_le (by norm_num) h1

/-- Helper for C5: deployment score bounds. -/
theorem scoreDeploymentReady_bounds (parse : String → Option PkgJson) (ws : List Entry) :
    0 ≤ (scoreDeploymentReady parse ws).score ∧ (scoreDeploymentReady parse ws).score ≤ 100 := by
  have h0 : 0 ≤ deployRawScore parse ws := by
    unfold deployRawScore
    split_ifs <;> norm_num
  exact ⟨le_min h0 (by norm_num), min_le_right _ _⟩

/-- C5: every category score of every scan report is an integer in
`[0, 100]`, whatever the workspace contents: additive scorers are clamped
above by `Math.min`, the deduction-based Security scorer is clamped below
by `Math.max` and never exceeds its initial 100. -/
theorem C5_scores_clamped (parse : String → Option PkgJson) (ws : List Entry)
    (c : CategoryScore) (hc : c ∈ (scan parse ws).categories) :
    0 ≤ c.score ∧ c.score ≤ 100 := by
  have hc' : c ∈ [scoreFrontend parse ws, scoreBackend ws, scoreAuthentication parse ws,
      scoreDatabase parse ws, scorePayments parse ws, scoreSecurity ws,
      scoreDeploymentReady parse ws] := hc
  simp only [List.mem_cons, List.not_mem_nil, or_false] at hc'
  rcases hc' with h | h | h | h | h | h | h <;> subst h
  · exact scoreFrontend_bounds parse ws
  · exact scoreBackend_bounds ws
  · exact scoreAuthentication_bounds parse ws
  · exact scoreDatabase_bounds parse ws
  · exact scorePayments_bounds parse ws
  · exact scoreSecurity_bounds ws
  · exact scoreDeploymentReady_bounds parse ws

/-- C5 witness: the bound applied to a concrete report's category. -/
theorem C5_scores_clamped_witness :
    0 ≤ (scoreFrontend parseNone (staticWs "hello")).score ∧
    (scoreFrontend parseNone (staticWs "hello")).score ≤ 100 :=
  C5_scores_clamped parseNone (staticWs "hello") _ (List.mem_cons_self _ _)

/-- C4 counterexample: the concrete static-site workspace of scenario A.
The Frontend score is 20 as claimed, but the status is `critical`, not
`warning`: 20 is below the Frontend scorer's warning threshold of 40. -/
theorem C4_counterexample :
    (scoreFrontend parseNone (staticWs "<h1>Hello</h1>")).score = 20 ∧
    (scoreFrontend parseNone (staticWs "<h1>Hello</h1>")).status = "critical" ∧
    (scoreFrontend parseNone (staticWs "<h1>Hello</h1>")).status ≠ "warning" := by
  refine ⟨by decide, by decide, by decide⟩

/-- C4 (amended): for a workspace holding only a static `index.html` whose
content contains none of the scanned marker substrings, the report has
Frontend score 20 with status `critical` (below the 40 warning threshold,
so not `warning` as the spec's scenario states), Backend, Authentication
and Database score 0 status `critical`, Payments score 0 status `warning`
(special-cased), and Deployment-Readiness score 0 status `critical`. -/
theorem C4_static_site_report (parse : String → Option PkgJson) (content : String)
    (h : ∀ t ∈ scenarioAMarkers, strIncludes (strToLower content) t = false) :
    ((scoreFrontend parse (staticWs content)).score = 20 ∧
      (scoreFrontend parse (staticWs content)).status = "critical") ∧
    ((scoreBackend (staticWs content)).score = 0 ∧
      (scoreBackend (staticWs content)).status = "critical") ∧
    ((scoreAuthentication parse (staticWs content)).score = 0 ∧
      (scoreAuthentication parse (staticWs content)).status = "critical") ∧
    ((scoreDatabase parse (staticWs content)).score = 0 ∧
      (scoreDatabase parse (staticWs content)).status = "critical") ∧
    ((scorePayments parse (staticWs content)).score = 0 ∧
      (scorePayments parse (staticWs content)).status = "warning") ∧
    ((scoreDeploymentReady parse (staticWs content)).score = 0 ∧
      (scoreDeploymentReady parse (staticWs content)).status = "critical") := by
  have hviewport := staticWs_search_false content "viewport"
    (h "viewport" (by decide))
  have hresponsive := staticWs_search_false content "responsive"
    (h "responsive" (by decide))
  have hmedia := staticWs_search_false content "@media"
    (h "@media" (by decide))
  have hexpress := staticWs_search_false content "express()"
    (h "express()" (by decide))
  have hlisten := staticWs_search_false content "app.listen"
    (h "app.listen" (by decide))
  have hfastify := staticWs_search_false content "fastify()"
    (h "fastify()" (by decide))
  have hflask := staticWs_search_false content "Flask"
    (h "flask" (by decide))
  have hdjango := staticWs_search_false content "Django"
    (h "django" (by decide))
  have hfastapi := staticWs_search_false content "FastAPI"
    (h "fastapi" (by decide))
  have hapi := staticWs_search_false content "/api/"
    (h "/api/" (by decide))
  have hget := staticWs_search_false content "app.get"
    (h "app.get" (by decide))
  have hpost := staticWs_search_false content "app.post"
    (h "app.post" (by decide))
  have hroute := staticWs_search_false content "@app.route"
    (h "@app.route" (by decide))
  have hlogin := staticWs_search_false content "login"
    (h "login" (by decide))
  have hjwt := staticWs_search_false content "jwt"
    (h "jwt" (by decide))
  have htoken := staticWs_search_false content "token"
    (h "token" (by decide))
  have hsession := staticWs_search_false content "session"
    (h "session" (by decide))
  have hresp : frontendResponsiveHit (staticWs content) = false := by
    unfold frontendResponsiveHit
    rw [hviewport, hresponsive, hmedia]
    rfl
  have hfraw : frontendRawScore parse (staticWs content) = 20 := by
    unfold frontendRawScore
    rw [hresp]
    rfl
  have hnode : backendNodeHit (staticWs content) = false := by
    unfold backendNodeHit
    rw [hexpress, hlisten, hfastify]
    rfl
  have hpy : backendPythonHit (staticWs content) = false := by
    unfold backendPythonHit
    rw [hflask, hdjango, hfastapi]
    rfl
  have hroutes : backendRoutesHit (staticWs content) = false := by
    unfold backendRoutesHit
    rw [hapi, hget, hpost, hroute]
    rfl
  have hbraw : backendRawScore (staticWs content) = 0 := by
    unfold backendRawScore
    rw [hnode, hpy, hroutes]
    rfl
  have hlog : authLoginHit (staticWs content) = false := by
    unfold authLoginHit
    rw [hlogin]
    rfl
  have htok : authTokenHit (staticWs content) = false := by
    unfold authTokenHit
    rw [hjwt, htoken, hsession]
    rfl
  have haraw : authRawScore parse (staticWs content) = 0 := by
    unfold authRawScore
    rw [hlog, htok]
    rfl
  have hdraw : dbRawScore parse (staticWs content) = 0 := rfl
  have hdepraw : deployRawScore parse (staticWs content) = 0 := rfl
  refine ⟨⟨?_, ?_⟩, ⟨?_, ?_⟩, ⟨?_, ?_⟩, ⟨?_, ?_⟩, ⟨rfl, rfl⟩, ⟨?_, ?_⟩⟩
  · show min (frontendRawScore parse (staticWs content)) 100 = 20
    rw [hfraw]
    exact min_eq_left (by norm_num)
  · show (if frontendRawScore parse (staticWs content) ≥ 70 then "pass"
      else if frontendRawScore parse (staticWs content) ≥ 40 then "warning"
      else "critical") = "critical"
    rw [hfraw, if_neg (by norm_num), if_neg (by norm_num)]
  · show min (backendRawScore (staticWs content)) 100 = 0
    rw [hbraw]
    exact min_eq_left (by norm_num)
  · show (if backendRawScore (staticWs content) ≥ 70 then "pass"
      else if backendRawScore (staticWs content) ≥ 30 then "warning"
      else "critical") = "critical"
    rw [hbraw, if_neg (by norm_num), if_neg (by norm_num)]
  · show min (authRawScore parse (staticWs content)) 100 = 0
    rw [haraw]
    exact min_eq_left (by norm_num)
  · show (if authRawScore parse (staticWs content) ≥ 70 then "pass"
      else if authRawScore parse (staticWs content) ≥ 40 then "warning"
      else "critical") = "critical"
    rw [haraw, if_neg (by norm_num), if_neg (by norm_num)]
  · show min (dbRawScore parse (staticWs content)) 100 = 0
    rw [hdraw]
    exact min_eq_left (by norm_num)
  · show (if dbRawScore parse (staticWs content) ≥ 70 then "pass"
      else if dbRawScore parse (staticWs content) ≥ 30 then "warning"
      else "critical") = "critical"
    rw [hdraw, if_neg (by norm_num), if_neg (by norm_num)]
  · show min (deployRawScore parse (staticWs content)) 100 = 0
    rw [hdepraw]
    exact min_eq_left (by norm_num)
  · show (if deployRawScore parse (staticWs content) ≥ 70 then "pass"
      else if deployRawScore parse (staticWs content) ≥ 40 then "warning"
      else "critical") = "critical"
    rw [hdepraw, if_neg (by norm_num), if_neg (by norm_num)]

/-- C4 witness: the amended scenario evaluated on the concrete benign
static page. -/
theorem C4_static_site_report_witness :
    (scoreFrontend parseNone (staticWs "<h1>Hello</h1>")).status = "critical" ∧
    (scoreBackend (staticWs "<h1>Hello</h1>")).score = 0 ∧
    (scorePayments parseNone (staticWs "<h1>Hello</h1>")).status = "warning" :=
  ⟨(C4_static_site_report parseNone "<h1>Hello</h1>" (by decide)).1.2,
   (C4_static_site_report parseNone "<h1>Hello</h1>" (by decide)).2.1.1,
   (C4_static_site_report parseNone "<h1>Hello</h1>" (by decide)).2.2.2.2.1.2⟩

/-- C8: for one client with quota 10 and a one-hour window, (1) any trace
of calls at nondecreasing times admits at most 10 calls inside any
window-length interval; (2) a call finding the quota filled in its
trailing window is rejected with the retry-after payload, the stored list
untouched; (3) that retry-after signal is 3600 seconds; (4) a call is
admitted iff the count of stored timestamps still inside the trailing
window (the purge computed on every call) is below the quota, and on
admission the stored list becomes the purged list plus the new timestamp;
(5) once the window has elapsed since the earliest of ten stored
admissions while the other nine are still fresh, the next call is
admitted again. -/
theorem C8_admission_guard :
    (∀ (calls : List Int) (T : Int), List.Pairwise (· ≤ ·) calls →
      admittedIn (guardTrace [] calls) T ≤ maxRequests) ∧
    (∀ (ts : List Int) (now : Int), maxRequests ≤ freshCount ts now →
      rateLimitStep ts now = (.rejected retryAfterSeconds, ts)) ∧
    retryAfterSeconds = 3600 ∧
    (∀ (ts : List Int) (now : Int),
      ((rateLimitStep ts now).1 = .allowed ↔ freshCount ts now < maxRequests) ∧
      ((rateLimitStep ts now).1 = .allowed →
        (rateLimitStep ts now).2 = (ts.filter fun t => now - t < windowMs) ++ [now])) ∧
    (∀ (t1 : Int) (rest : List Int) (now : Int), rest.length = 9 →
      windowMs ≤ now - t1 → (∀ t ∈ rest, now - t < windowMs) →
      (rateLimitStep (t1 :: rest) now).1 = .allowed) := by
  refine ⟨?_, fun ts now h => rateLimitStep_reject h, by decide, ?_, ?_⟩
  · intro calls T hs
    have := guard_window_bound calls [] 0 T hs (by norm_num)
      (fun c hm hlt => Nat.zero_le _)
    omega
  · intro ts now
    constructor
    · constructor
      · intro hallow
        by_contra hge
        push_neg at hge
        rw [rateLimitStep_reject hge] at hallow
        exact absurd hallow (by simp)
      · intro hlt
        rw [rateLimitStep_allow hlt]
    · intro hallow
      have hlt : freshCount ts now < maxRequests := by
        by_contra hge
        push_neg at hge
        rw [rateLimitStep_reject hge] at hallow
        exact absurd hallow (by simp)
      rw [rateLimitStep_allow hlt]
  · intro t1 rest now hlen hold hfresh
    have hfc : freshCount (t1 :: rest) now = rest.length := by
      unfold freshCount
      rw [List.filter_cons]
      have h1 : ¬ (now - t1 < windowMs) := by omega
      rw [if_neg (by simpa using h1)]
      rw [List.filter_eq_self.mpr fun a ha => by simpa using hfresh a ha]
    rw [rateLimitStep_allow (by rw [hfc, hlen]; decide)]

/-- C8 witness: eleven calls inside one window admit at most ten, the
eleventh call against a full window is rejected with retry-after 3600, and
a call one full window after the earliest admission is admitted. -/
theorem C8_admission_guard_witness :
    admittedIn (guardTrace [] [0, 1, 2, 3, 4, 5, 6, 7, 8, 9, 10]) 0 ≤ maxRequests ∧
    rateLimitStep [0, 1, 2, 3, 4, 5, 6, 7, 8, 9] 10 =
      (.rejected retryAfterSeconds, [0, 1, 2, 3, 4, 5, 6, 7, 8, 9]) ∧
    (rateLimitStep [0, 1, 2, 3, 4, 5, 6, 7, 8, 9] 3600000).1 = .allowed :=
  ⟨C8_admission_guard.1 _ 0 (by decide),
   C8_admission_guard.2.1 _ _ (by decide),
   C8_admission_guard.2.2.2.2 0 [1, 2, 3, 4, 5, 6, 7, 8, 9] 3600000 (by decide) (by decide)
     (by decide)⟩

/-- C10 witness: a workspace with a stylesheet but no manifest awards no
styling points. -/
theorem C10_no_styling_without_manifest_witness :
    0 < (searchInFiles wsCssNoManifest [".css"] []).length ∧
    (frontendStylingHit parseNone wsCssNoManifest = false ∧
      "Styling framework/CSS detected" ∉ (scoreFrontend parseNone wsCssNoManifest).findings ∧
      (scoreFrontend parseNone wsCssNoManifest).score ≤ 30) :=
  ⟨by decide, C10_no_styling_without_manifest parseNone wsCssNoManifest (by decide)⟩

end Shovel
